import Mathlib

/-
Shallow embedding of the crossfade / dual-deck synchronization core of the
ChopShop application (source/MainComponent.cpp, source/LibraryComponent.cpp).
Machine floats and doubles are modelled as rational numbers where the code
only adds, subtracts, multiplies, divides and compares, and as real numbers
where the code applies transcendental functions (cos, sin, log10, sqrt).
-/

/-! ## Chop gesture (MainComponent lines 75-95 and 547-598) -/

/-- The crossfader state seen by the chop handlers: the crossfader value held
by the chop component and the press timestamp member chopStartTime. -/
structure ChopState where
  crossfader : ℚ
  chopStartTime : ℚ
deriving DecidableEq

/-- The toggle target written by every chop handler:
currentPosition <= 0.5f ? 1.0f : 0.0f. -/
def toggleTarget (p : ℚ) : ℚ := if p ≤ 1 / 2 then 1 else 0

/-- Models onChopButtonPressed (MainComponent lines 75-79) and the
SDL_GAMEPAD_BUTTON_SOUTH case of gamepadButtonPressed (lines 552-556):
record the press time, toggle the crossfader to the opposite extreme. -/
def chopButtonPressed (now : ℚ) (s : ChopState) : ChopState :=
  { crossfader := toggleTarget s.crossfader, chopStartTime := now }

/-- Models onChopButtonReleased (MainComponent lines 81-95) and the
SDL_GAMEPAD_BUTTON_SOUTH case of gamepadButtonReleased (lines 582-598).
minimumTime is getChopDurationInMs of the current tempo on the mouse path
and the member trackOffset on the gamepad path; both paths otherwise run
the same code.  The second component is the delay of the one-shot timer
started by this release (none when no timer is started). -/
def chopButtonReleased (now minimumTime : ℚ) (s : ChopState) : ChopState × Option ℚ :=
  let elapsedTime := now - s.chopStartTime
  if minimumTime ≤ elapsedTime then
    ({ s with crossfader := toggleTarget s.crossfader }, none)
  else
    (s, some (minimumTime - elapsedTime))

/-! ## Tempo, deck offset and file loading
(MainComponent::handleFileSelection lines 338-446, MainComponent::updateTempo
lines 448-472, the onTempoChanged callback lines 184-188, and the BPM editor
of LibraryComponent::showBpmEditorWindow lines 594-601). -/

/-- A wave clip as inserted by handleFileSelection: timeline start position in
seconds, source length in seconds, internal source offset in seconds, clip
gain in dB. -/
structure Clip where
  start : ℚ
  srcLength : ℚ
  srcOffset : ℚ
  gainDb : ℚ
deriving DecidableEq

/-- The application state touched by the tempo / file-loading code paths:
MainComponent members (baseTempo, trackOffset), the screw component tempo
(the live tempo), the tempo sequence, the delay component tempo, the
crossfader, the transport, the clips of the two tracks, and traces of the
values pushed to thumbnail setSpeedRatio and delayComponent setDelayTime. -/
structure AppState where
  baseTempo : ℚ
  liveTempo : ℚ
  screwBaseTempo : ℚ
  trackOffset : ℚ
  tempoSequenceBpm : ℚ
  delayTempo : ℚ
  crossfader : ℚ
  playing : Bool
  transportPosition : ℚ
  track1 : List Clip
  track2 : List Clip
  speedRatioPushes : List ℚ
  delayTimePushes : List ℚ
deriving DecidableEq

/-- Models MainComponent::updateTempo (lines 448-472): read the live tempo
from the screw component, write it to the tempo sequence, push
baseTempo / newBpm to the thumbnail speed display, and hand the live tempo to
the delay component via setTempo. -/
def updateTempo (s : AppState) : AppState :=
  let newBpm := s.liveTempo
  { s with
    tempoSequenceBpm := newBpm,
    speedRatioPushes := s.speedRatioPushes ++ [s.baseTempo / newBpm],
    delayTempo := newBpm }

/-- Models the screw component onTempoChanged callback (MainComponent lines
184-188): the screw component has already stored the new live tempo when the
callback fires; the callback runs updateTempo and then hands the new tempo to
the delay component. -/
def onTempoChanged (tempo : ℚ) (s : AppState) : AppState :=
  let s1 := updateTempo { s with liveTempo := tempo }
  { s1 with delayTempo := tempo }

/-- Models MainComponent::handleFileSelection (lines 338-446) for a file with
detected BPM detectedBPM and audio length audioLen seconds.  fileExists,
audioValid and tracksOk model the three guards at lines 340, 345 and 351.
The null-clip bail-out at line 386 is modelled as clip insertion succeeding.
Step by step, in source order: remove all clips from both tracks; set the
member baseTempo to the detected BPM (line 359); insert clip1 at the
timeline start; set trackOffset = (60 / baseTempo) * 1000 (line 368); insert
clip2 starting at 0 with internal offset trackOffset / 1000 seconds and gain
0 dB (lines 373-384); compute currentRatio = live tempo / baseTempo with the
member already holding the NEW base tempo (line 395); set the screw base
tempo and set the live tempo to baseTempo * currentRatio (lines 396-399);
write the base tempo to the tempo sequence (line 403); stop the transport at
position 0 (lines 406-412); push the quarter-note delay time
(60 / baseTempo) * 1000 to the delay component (lines 416-421); push
live tempo / baseTempo to the thumbnail speed display (lines 423-430); reset
the crossfader to 0 (line 433); run updateTempo (line 438); auto-play from
position 0 (lines 441-445). -/
def handleFileSelection (fileExists audioValid tracksOk : Bool)
    (detectedBPM audioLen : ℚ) (s : AppState) : AppState :=
  if fileExists = false then s
  else if audioValid = false then s
  else if tracksOk = false then s
  else
    let base := detectedBPM
    let clip1 : Clip := { start := 0, srcLength := audioLen, srcOffset := 0, gainDb := 0 }
    let offsetMs := (60 / base) * 1000
    let clip2 : Clip := { start := 0, srcLength := audioLen, srcOffset := offsetMs / 1000, gainDb := 0 }
    let currentRat := s.liveTempo / base
    let newTempo := base * currentRat
    let quarterNoteMs := (60 / base) * 1000
    let s1 : AppState :=
      { s with
        baseTempo := base,
        track1 := [clip1],
        track2 := [clip2],
        trackOffset := offsetMs,
        screwBaseTempo := base,
        liveTempo := newTempo,
        tempoSequenceBpm := base,
        playing := false,
        transportPosition := 0,
        delayTimePushes := s.delayTimePushes ++ [quarterNoteMs] }
    let s2 := { s1 with speedRatioPushes := s1.speedRatioPushes ++ [s1.liveTempo / s1.baseTempo] }
    let s3 := { s2 with crossfader := 0 }
    let s4 := updateTempo s3
    { s4 with transportPosition := 0, playing := true }

/-- Models the OK button of the BPM editor dialog
(LibraryComponent::showBpmEditorWindow, lines 594-601): an entered value
enteredBpm ≤ 0 is refused and the stored BPM of the library item is left
unchanged; otherwise the stored BPM becomes the entered value. -/
def bpmEditorOkClick (enteredBpm storedBpm : ℚ) : ℚ :=
  if enteredBpm ≤ 0 then storedBpm else enteredBpm

/-- A concrete starting state used by the concrete evaluations: a track
loaded at base tempo 120 with the live tempo raised to 150. -/
def demoState : AppState :=
  { baseTempo := 120, liveTempo := 150, screwBaseTempo := 120,
    trackOffset := 500, tempoSequenceBpm := 150, delayTempo := 150,
    crossfader := 0, playing := false, transportPosition := 0,
    track1 := [], track2 := [],
    speedRatioPushes := [], delayTimePushes := [] }

/-! ## Equal-power gain curve (MainComponent::updateCrossfader lines 483-499)
and gamepad axis mapping (MainComponent::gamepadAxisMoved lines 620-702),
over the reals. -/

noncomputable section

/-- Models juce::jlimit lowerLimit upperLimit valueToConstrain:
returns the value clamped into the interval. -/
def jlimit (lowerLimit upperLimit v : ℝ) : ℝ :=
  if v < lowerLimit then lowerLimit
  else if upperLimit < v then upperLimit
  else v

/-- Modelled from the spec: juce::Decibels::gainToDecibels is an external
library routine, not part of this repository; the spec says only to
"convert each linear gain to decibels", which is dB = 20 * log10 gain. -/
def gainToDecibels (g : ℝ) : ℝ := 20 * Real.logb 10 g

/-- The silence floor used by MainComponent::updateCrossfader (line 486). -/
def minDB : ℝ := -60

/-- Linear gain of track A, MainComponent::updateCrossfader line 489:
cos (position * halfPi). -/
def gainLinearA (p : ℝ) : ℝ := Real.cos (p * (Real.pi / 2))

/-- Linear gain of track B, MainComponent::updateCrossfader line 490:
sin (position * halfPi). -/
def gainLinearB (p : ℝ) : ℝ := Real.sin (p * (Real.pi / 2))

/-- Decibel gain pushed to track A, MainComponent::updateCrossfader line 493:
a nonpositive linear gain is clamped to the -60 dB floor. -/
def gainDB1 (p : ℝ) : ℝ :=
  if gainLinearA p ≤ 0 then minDB else gainToDecibels (gainLinearA p)

/-- Decibel gain pushed to track B, MainComponent::updateCrossfader line 494. -/
def gainDB2 (p : ℝ) : ℝ :=
  if gainLinearB p ≤ 0 then minDB else gainToDecibels (gainLinearB p)

/-- The pair of decibel gains computed by MainComponent::updateCrossfader
for a crossfader position and pushed to the two track volumes. -/
def updateCrossfaderGains (p : ℝ) : ℝ × ℝ := (gainDB1 p, gainDB2 p)

/-- The four analog stick axes handled by MainComponent::gamepadAxisMoved
(the two trigger axes drive the brake and are modelled separately by the
spec, out of the scope of the claims). -/
inductive StickAxis where
  | leftX
  | leftY
  | rightX
  | rightY

/-- The gamepad-axis state of MainComponent::gamepadAxisMoved: the four
static last-seen stick values and the effect parameters last pushed to the
flanger and phaser components. -/
structure AxisState where
  leftX : ℝ
  leftY : ℝ
  rightX : ℝ
  rightY : ℝ
  flangerSpeed : ℝ
  flangerDepth : ℝ
  flangerWidth : ℝ
  phaserRate : ℝ
  phaserDepth : ℝ
  phaserFeedback : ℝ

/-- The curved width computed on left-stick events (lines 662-664 and
675-677): square of the distance from center normalized by sqrt 2. -/
def curvedWidth (x y : ℝ) : ℝ :=
  let distance := Real.sqrt (x * x + y * y)
  let normalizedDistance := distance / Real.sqrt 2
  normalizedDistance * normalizedDistance

/-- Models the four stick cases of MainComponent::gamepadAxisMoved
(lines 656-700): each axis event stores the last-seen value for its own
channel, pushes value * 10 to its effect parameter, and recomputes the
derived width (left stick, clamped to [0, 0.99]) or feedback (right stick,
distance clamped to [0, 0.70]) from the last-seen pair. -/
def gamepadAxisMoved : StickAxis → ℝ → AxisState → AxisState
  | .leftX, v, s =>
    let s1 := { s with leftX := v }
    { s1 with
      flangerSpeed := v * 10,
      flangerWidth := jlimit 0 0.99 (curvedWidth s1.leftX s1.leftY) }
  | .leftY, v, s =>
    let s1 := { s with leftY := v }
    { s1 with
      flangerDepth := v * 10,
      flangerWidth := jlimit 0 0.99 (curvedWidth s1.leftX s1.leftY) }
  | .rightX, v, s =>
    let s1 := { s with rightX := v }
    { s1 with
      phaserRate := v * 10,
      phaserFeedback := jlimit 0 0.70 (Real.sqrt (s1.rightX * s1.rightX + s1.rightY * s1.rightY)) }
  | .rightY, v, s =>
    let s1 := { s with rightY := v }
    { s1 with
      phaserDepth := v * 10,
      phaserFeedback := jlimit 0 0.70 (Real.sqrt (s1.rightX * s1.rightX + s1.rightY * s1.rightY)) }

/-- A gamepad-axis state with both sticks centered and all effect parameters
at zero. -/
def axisZeroState : AxisState :=
  { leftX := 0, leftY := 0, rightX := 0, rightY := 0,
    flangerSpeed := 0, flangerDepth := 0, flangerWidth := 0,
    phaserRate := 0, phaserDepth := 0, phaserFeedback := 0 }

end

/-! ## Theorems for the claims -/

/-- C6: every chop press records the press timestamp and immediately toggles
the crossfader to the opposite extreme using midpoint 1/2 as the decision
boundary: if the current position is at most 1/2 the crossfader is set to 1,
otherwise to 0. -/
theorem c6_chop_press_toggles (now : ℚ) (s : ChopState)
    (h0 : 0 ≤ s.crossfader) (h1 : s.crossfader ≤ 1) :
    (chopButtonPressed now s).chopStartTime = now ∧
    (s.crossfader ≤ 1 / 2 → (chopButtonPressed now s).crossfader = 1) ∧
    (1 / 2 < s.crossfader → (chopButtonPressed now s).crossfader = 0) := by
  refine ⟨rfl, ?_, ?_⟩
  · intro h
    simp only [chopButtonPressed, toggleTarget]
    rw [if_pos h]
  · intro h
    simp only [chopButtonPressed, toggleTarget]
    rw [if_neg (not_le.mpr h)]

theorem c6_chop_press_toggles_witness :
    (chopButtonPressed 100 ⟨1 / 4, 0⟩).chopStartTime = 100 ∧
    (chopButtonPressed 100 ⟨1 / 4, 0⟩).crossfader = 1 := by
  have h := c6_chop_press_toggles 100 ⟨1 / 4, 0⟩ (by norm_num) (by norm_num)
  exact ⟨h.1, h.2.1 (by norm_num)⟩

/-- C5: a chop release with elapsed = now - chopStartTime at least the
minimum hold time toggles the crossfader synchronously exactly once and
starts no deferred timer; a release with elapsed below the minimum hold time
leaves the state unchanged (in particular the crossfader position) and
starts a one-shot timer with delay minimumTime - elapsed. -/
theorem c5_chop_release_timing (now minimumTime : ℚ) (s : ChopState) :
    (minimumTime ≤ now - s.chopStartTime →
      (chopButtonReleased now minimumTime s).1.crossfader = toggleTarget s.crossfader ∧
      (chopButtonReleased now minimumTime s).1.chopStartTime = s.chopStartTime ∧
      (chopButtonReleased now minimumTime s).2 = none) ∧
    (now - s.chopStartTime < minimumTime →
      (chopButtonReleased now minimumTime s).1 = s ∧
      (chopButtonReleased now minimumTime s).2 =
        some (minimumTime - (now - s.chopStartTime))) := by
  constructor
  · intro h
    simp [chopButtonReleased, h]
  · intro h
    simp [chopButtonReleased, not_le.mpr h]

theorem c5_chop_release_timing_witness :
    (chopButtonReleased 700 500 ⟨1 / 5, 0⟩).1.crossfader = 1 ∧
    (chopButtonReleased 700 500 ⟨1 / 5, 0⟩).2 = none ∧
    (chopButtonReleased 300 500 ⟨1 / 5, 0⟩).1 = ⟨1 / 5, 0⟩ ∧
    (chopButtonReleased 300 500 ⟨1 / 5, 0⟩).2 = some 200 := by
  have hLong := (c5_chop_release_timing 700 500 ⟨1 / 5, 0⟩).1 (by norm_num)
  have hShort := (c5_chop_release_timing 300 500 ⟨1 / 5, 0⟩).2 (by norm_num)
  refine ⟨?_, hLong.2.2, hShort.1, ?_⟩
  · rw [hLong.1]
    norm_num [toggleTarget]
  · rw [hShort.2]
    norm_num

/-- C1 evaluation at the failing input: reloading a track with new base
tempo 100 while the old base tempo was 120 and the live tempo 150 leaves
the live tempo at 150 instead of the claimed 125, because the member
baseTempo is overwritten (line 359) before the ratio is read (line 395),
so the captured ratio is live / newBase and the live tempo is unchanged. -/
theorem c1_reload_live_tempo_unchanged :
    (handleFileSelection true true true 100 180 demoState).liveTempo = 150 ∧
    (handleFileSelection true true true 100 180 demoState).liveTempo ≠ 125 := by
  constructor <;> norm_num [handleFileSelection, updateTempo, demoState]

/-- C2 counterexample: with base tempo 120, changing the live tempo to 150
pushes 120 / 150 = 4/5 to the waveform-speed display, not the claimed
liveTempo / baseTempo = 150 / 120. -/
theorem c2_counterexample_inverse_push :
    (onTempoChanged 150 demoState).speedRatioPushes = [4 / 5] ∧
    (4 / 5 : ℚ) ≠ 150 / 120 := by
  constructor
  · norm_num [onTempoChanged, updateTempo, demoState]
  · norm_num

/-- C2 amended: on a live-tempo change, updateTempo pushes
baseTempo / liveTempo (the inverse of the claimed ratio) to the
waveform-speed display; on a file load, handleFileSelection first pushes
liveTempo / baseTempo (line 430) and then runs updateTempo, which pushes
the inverse. -/
theorem c2_amended_speed_pushes :
    (∀ (s : AppState) (t : ℚ),
      (onTempoChanged t s).speedRatioPushes = s.speedRatioPushes ++ [s.baseTempo / t]) ∧
    (∀ (s : AppState) (b len : ℚ),
      (handleFileSelection true true true b len s).speedRatioPushes =
        s.speedRatioPushes ++ [b * (s.liveTempo / b) / b, b / (b * (s.liveTempo / b))]) := by
  constructor
  · intro s t
    simp [onTempoChanged, updateTempo]
  · intro s b len
    simp [handleFileSelection, updateTempo]

/-- C3 counterexample: loading a file with detected BPM 100 while the live
tempo ends up at 150 pushes a delay time of (60 / 100) * 1000 = 600 ms,
computed from the base tempo, not the claimed (60 / 150) * 1000 = 400 ms at
the live tempo. -/
theorem c3_counterexample_delay_from_base :
    (handleFileSelection true true true 100 180 demoState).delayTimePushes = [600] ∧
    (handleFileSelection true true true 100 180 demoState).liveTempo = 150 ∧
    (600 : ℚ) ≠ (60 / 150) * 1000 := by
  refine ⟨?_, ?_, by norm_num⟩ <;> norm_num [handleFileSelection, updateTempo, demoState]

/-- C3 amended: on a file load the delay time pushed via setDelayTime is
(60 / baseTempo) * 1000, the quarter note at the base tempo; on a live-tempo
change the delay component instead receives the live tempo itself via
setTempo. -/
theorem c3_amended_delay_pushes :
    (∀ (s : AppState) (b len : ℚ),
      (handleFileSelection true true true b len s).delayTimePushes =
        s.delayTimePushes ++ [(60 / b) * 1000]) ∧
    (∀ (s : AppState) (t : ℚ), (onTempoChanged t s).delayTempo = t) := by
  constructor
  · intro s b len
    simp [handleFileSelection, updateTempo]
  · intro s t
    simp [onTempoChanged, updateTempo]

/-- C7: on every file load the millisecond offset between the two decks is
(60 / baseTempo) * 1000, deck B is inserted at timeline position 0 with this
offset recorded as its internal source offset (in seconds), and base tempo
120 yields an offset of 500 ms. -/
theorem c7_deck_offset (s : AppState) (b len : ℚ) (hb : 0 < b) :
    (handleFileSelection true true true b len s).trackOffset = (60 / b) * 1000 ∧
    (handleFileSelection true true true b len s).track2 =
      [{ start := 0, srcLength := len, srcOffset := ((60 / b) * 1000) / 1000, gainDb := 0 }] ∧
    (handleFileSelection true true true 120 len s).trackOffset = 500 := by
  refine ⟨?_, ?_, ?_⟩ <;> simp [handleFileSelection, updateTempo] <;> norm_num

theorem c7_deck_offset_witness :
    (handleFileSelection true true true 120 180 demoState).trackOffset = 500 :=
  (c7_deck_offset demoState 120 180 (by norm_num)).2.2

/-- C9 counterexample: file selection applies a detected BPM of 0 directly
to the base tempo, so an attempt to set a nonpositive base tempo through
the file-load path is not refused. -/
theorem c9_counterexample_load_unguarded :
    (handleFileSelection true true true 0 180 demoState).baseTempo = 0 ∧
    ¬ 0 < (handleFileSelection true true true 0 180 demoState).baseTempo := by
  constructor <;> norm_num [handleFileSelection, updateTempo, demoState]

/-- C9 amended: the BPM editor refuses an entered value ≤ 0 (the stored BPM
is unchanged) and accepts a positive value; the file-load path applies the
detected BPM to the base tempo without any positivity guard. -/
theorem c9_amended_guards :
    (∀ entered stored : ℚ, entered ≤ 0 → bpmEditorOkClick entered stored = stored) ∧
    (∀ entered stored : ℚ, 0 < entered → bpmEditorOkClick entered stored = entered) ∧
    (∀ (s : AppState) (b len : ℚ),
      (handleFileSelection true true true b len s).baseTempo = b) := by
  refine ⟨?_, ?_, ?_⟩
  · intro entered stored h
    simp [bpmEditorOkClick, h]
  · intro entered stored h
    simp [bpmEditorOkClick, not_le.mpr h]
  · intro s b len
    simp [handleFileSelection, updateTempo]

theorem c9_amended_guards_witness :
    bpmEditorOkClick (-5) 120 = 120 ∧ bpmEditorOkClick 130 120 = 130 ∧
    (handleFileSelection true true true 90 180 demoState).baseTempo = 90 := by
  refine ⟨(c9_amended_guards.1 (-5) 120 (by norm_num)).trans rfl, ?_, ?_⟩
  · exact (c9_amended_guards.2.1 130 120 (by norm_num)).trans rfl
  · exact c9_amended_guards.2.2 demoState 90 180

/-- C10: file selection with a file that does not exist or is not a valid
audio file returns before performing any mutation: the whole application
state (clips of both tracks, base tempo, track offset, crossfader,
transport) is unchanged. -/
theorem c10_invalid_file_noop (s : AppState) (b len : ℚ)
    (fileExists audioValid tracksOk : Bool)
    (h : fileExists = false ∨ audioValid = false) :
    handleFileSelection fileExists audioValid tracksOk b len s = s := by
  rcases h with h | h
  · subst h
    simp [handleFileSelection]
  · subst h
    cases fileExists <;> simp [handleFileSelection]

theorem c10_invalid_file_noop_witness :
    handleFileSelection false true true 100 180 demoState = demoState ∧
    handleFileSelection true false true 100 180 demoState = demoState :=
  ⟨c10_invalid_file_noop demoState 100 180 false true true (Or.inl rfl),
   c10_invalid_file_noop demoState 100 180 true false true (Or.inr rfl)⟩

/-- Bounds on log base 10 of 2, from 10 ^ 3 < 2 ^ 10 and 2 ^ 1000 < 10 ^ 302. -/
theorem log10_two_bounds : 3 / 10 < Real.logb 10 2 ∧ Real.logb 10 2 < 302 / 1000 := by
  have hlog10 : (0 : ℝ) < Real.log 10 := Real.log_pos (by norm_num)
  have hLow : 3 * Real.log 10 < 10 * Real.log 2 := by
    have h := Real.log_lt_log (x := (10 : ℝ) ^ 3) (by positivity) (by norm_num : (10 : ℝ) ^ 3 < 2 ^ 10)
    rw [Real.log_pow, Real.log_pow] at h
    push_cast at h
    linarith
  have hHigh : 1000 * Real.log 2 < 302 * Real.log 10 := by
    have h := Real.log_lt_log (x := (2 : ℝ) ^ 1000) (by positivity) (by norm_num : (2 : ℝ) ^ 1000 < 10 ^ 302)
    rw [Real.log_pow, Real.log_pow] at h
    push_cast at h
    linarith
  rw [← Real.log_div_log]
  constructor
  · rw [lt_div_iff₀ hlog10]
    linarith
  · rw [div_lt_iff₀ hlog10]
    linarith

/-- The decibel gain of track A at center position equals -10 log10 2. -/
theorem gainDB1_at_half : gainDB1 (1 / 2) = -10 * Real.logb 10 2 := by
  have harg : (1 / 2 : ℝ) * (Real.pi / 2) = Real.pi / 4 := by ring
  have hA : gainLinearA (1 / 2) = Real.sqrt 2 / 2 := by
    rw [gainLinearA, harg, Real.cos_pi_div_four]
  have hpos : (0 : ℝ) < Real.sqrt 2 / 2 := by positivity
  rw [gainDB1, hA, if_neg (not_le.mpr hpos), gainToDecibels]
  rw [← Real.log_div_log, ← Real.log_div_log]
  rw [Real.log_div (by positivity) (by norm_num), Real.log_sqrt (by norm_num)]
  ring

/-- The decibel gain of track B at center position equals -10 log10 2. -/
theorem gainDB2_at_half : gainDB2 (1 / 2) = -10 * Real.logb 10 2 := by
  have harg : (1 / 2 : ℝ) * (Real.pi / 2) = Real.pi / 4 := by ring
  have hB : gainLinearB (1 / 2) = Real.sqrt 2 / 2 := by
    rw [gainLinearB, harg, Real.sin_pi_div_four]
  have hpos : (0 : ℝ) < Real.sqrt 2 / 2 := by positivity
  rw [gainDB2, hB, if_neg (not_le.mpr hpos), gainToDecibels]
  rw [← Real.log_div_log, ← Real.log_div_log]
  rw [Real.log_div (by positivity) (by norm_num), Real.log_sqrt (by norm_num)]
  ring

/-- C4: the crossfader gain computation uses the equal-power law
cos (p * pi/2), sin (p * pi/2), converts each linear gain to decibels and
clamps a nonpositive linear gain to the -60 dB floor; consequently the gains
at position 0 are (0 dB, -60 dB), at position 1 they are (-60 dB, 0 dB), at
position 1/2 both tracks sit within 0.01 of -3.01 dB, and the function is
total (defined for every real position). -/
theorem c4_equal_power_gain_curve :
    (∀ p : ℝ, updateCrossfaderGains p =
      (if Real.cos (p * (Real.pi / 2)) ≤ 0 then -60
        else 20 * Real.logb 10 (Real.cos (p * (Real.pi / 2))),
       if Real.sin (p * (Real.pi / 2)) ≤ 0 then -60
        else 20 * Real.logb 10 (Real.sin (p * (Real.pi / 2))))) ∧
    updateCrossfaderGains 0 = (0, -60) ∧
    updateCrossfaderGains 1 = (-60, 0) ∧
    |(updateCrossfaderGains (1 / 2)).1 + 3.01| < 0.01 ∧
    (updateCrossfaderGains (1 / 2)).2 = (updateCrossfaderGains (1 / 2)).1 := by
  refine ⟨fun p => rfl, ?_, ?_, ?_, ?_⟩
  · norm_num [updateCrossfaderGains, gainDB1, gainDB2, gainLinearA, gainLinearB,
      gainToDecibels, minDB]
  · norm_num [updateCrossfaderGains, gainDB1, gainDB2, gainLinearA, gainLinearB,
      gainToDecibels, minDB, Real.cos_pi_div_two, Real.sin_pi_div_two]
  · have hb := log10_two_bounds
    have h1 : (updateCrossfaderGains (1 / 2)).1 = -10 * Real.logb 10 2 := gainDB1_at_half
    rw [h1, abs_lt]
    constructor <;> linarith [hb.1, hb.2]
  · show gainDB2 (1 / 2) = gainDB1 (1 / 2)
    rw [gainDB1_at_half, gainDB2_at_half]

/-- C8: after left-stick events with last-seen values x and y in [-1, 1] the
flanger holds speed x * 10, depth y * 10 and width
clamp ((sqrt (x^2 + y^2) / sqrt 2)^2, 0, 0.99); after right-stick events the
phaser holds rate x * 10, depth y * 10 and feedback
clamp (sqrt (x^2 + y^2), 0, 0.70); the left stick at (1, 0) gives width 1/2
and at (0, 0) gives width 0. -/
theorem c8_axis_mapping :
    (∀ (s : AxisState) (x y : ℝ), -1 ≤ x → x ≤ 1 → -1 ≤ y → y ≤ 1 →
      (gamepadAxisMoved .leftY y (gamepadAxisMoved .leftX x s)).flangerSpeed = x * 10 ∧
      (gamepadAxisMoved .leftY y (gamepadAxisMoved .leftX x s)).flangerDepth = y * 10 ∧
      (gamepadAxisMoved .leftY y (gamepadAxisMoved .leftX x s)).flangerWidth =
        jlimit 0 0.99 ((Real.sqrt (x ^ 2 + y ^ 2) / Real.sqrt 2) ^ 2)) ∧
    (∀ (s : AxisState) (x y : ℝ), -1 ≤ x → x ≤ 1 → -1 ≤ y → y ≤ 1 →
      (gamepadAxisMoved .rightY y (gamepadAxisMoved .rightX x s)).phaserRate = x * 10 ∧
      (gamepadAxisMoved .rightY y (gamepadAxisMoved .rightX x s)).phaserDepth = y * 10 ∧
      (gamepadAxisMoved .rightY y (gamepadAxisMoved .rightX x s)).phaserFeedback =
        jlimit 0 0.70 (Real.sqrt (x ^ 2 + y ^ 2))) ∧
    (gamepadAxisMoved .leftX 1 axisZeroState).flangerWidth = 1 / 2 ∧
    (gamepadAxisMoved .leftX 0 axisZeroState).flangerWidth = 0 := by
  have hsqr : ∀ x y : ℝ, x * x + y * y = x ^ 2 + y ^ 2 := by
    intro x y
    ring
  refine ⟨?_, ?_, ?_, ?_⟩
  · intro s x y hx1 hx2 hy1 hy2
    refine ⟨rfl, rfl, ?_⟩
    show jlimit 0 0.99 (curvedWidth x y) = _
    rw [curvedWidth]
    congr 1
    rw [hsqr]
    ring
  · intro s x y hx1 hx2 hy1 hy2
    refine ⟨rfl, rfl, ?_⟩
    show jlimit 0 0.70 (Real.sqrt (x * x + y * y)) = _
    rw [hsqr]
  · show jlimit 0 0.99 (curvedWidth 1 axisZeroState.leftY) = 1 / 2
    have h2 : Real.sqrt 2 * Real.sqrt 2 = 2 := Real.mul_self_sqrt (by norm_num)
    have hw : curvedWidth 1 axisZeroState.leftY = 1 / 2 := by
      show curvedWidth 1 0 = 1 / 2
      rw [curvedWidth]
      norm_num [Real.sqrt_one]
      rw [← mul_inv, h2]
      norm_num
    rw [hw, jlimit]
    norm_num
  · show jlimit 0 0.99 (curvedWidth 0 axisZeroState.leftY) = 0
    have hw : curvedWidth 0 axisZeroState.leftY = 0 := by
      show curvedWidth 0 0 = 0
      rw [curvedWidth]
      norm_num
    rw [hw, jlimit]
    norm_num

theorem c8_axis_mapping_witness :
    (gamepadAxisMoved .leftY 0 (gamepadAxisMoved .leftX 1 axisZeroState)).flangerSpeed = 1 * 10 ∧
    (gamepadAxisMoved .leftY 0 (gamepadAxisMoved .leftX 1 axisZeroState)).flangerDepth = 0 * 10 ∧
    (gamepadAxisMoved .leftY 0 (gamepadAxisMoved .leftX 1 axisZeroState)).flangerWidth =
      jlimit 0 0.99 ((Real.sqrt ((1 : ℝ) ^ 2 + 0 ^ 2) / Real.sqrt 2) ^ 2) :=
  c8_axis_mapping.1 axisZeroState 1 0 (by norm_num) (by norm_num) (by norm_num) (by norm_num)
